import Mathlib

/-!
Shallow embedding of the HealthLLM-RLCR corpus construction pipeline, i.e. of
`src/data_processing.py` and `src/data/creation_scripts/lifesnaps_healthcare.py`.

Conventions of the embedding:
- a pandas DataFrame / HuggingFace `Dataset` is a `List Ex` of rows;
- a HuggingFace `DatasetDict` with train/test splits is a `DatasetDict`;
- a CSV cell value is a `Val` (int label, float target modelled as a rational,
  or text); `str(...)` / `.astype(str)` coercion is `valStr`;
- Python code that can raise (`KeyError` on a missing field, the fatal
  "no data" condition) returns an `Option`, `none` being the raised error;
- the seeded shuffle primitive (`df.sample(frac=1, random_state=seed)` and
  `Dataset.shuffle(seed=seed)`, both backed by an external PRNG library) is
  modelled by `shuffle`: a concrete deterministic permutation of the input,
  fully determined by the seed and the input length, implemented by repeated
  seeded selection with a linear congruential generator;
- the float `train_ratio` is modelled as an explicit non-negative rational
  `Frac` (numerator / denominator); `int(len(df) * train_ratio)` is
  `splitCut`, which agrees with `Nat.floor` of the rational product.
-/

/-- A cell value of a tabular source: integer classification labels,
floating-point regression targets (modelled as rationals), or text. -/
inductive Val where
  | vInt : Int → Val
  | vFloat : ℚ → Val
  | vStr : String → Val
deriving DecidableEq

/-- Python `str(v)` / pandas `.astype(str)`: the string representation of a
cell value (the exact rendering of numbers is irrelevant to the pipeline,
which never inspects it). -/
def valStr : Val → String
  | .vInt n => toString n
  | .vFloat q => toString q
  | .vStr s => s

/-- One turn of a templated conversation: `{"role": ..., "content": ...}`. -/
structure Msg where
  role : String
  content : String
deriving DecidableEq

/-- One row of a dataset.  `question`, `problem`, `answer`, `source` model the
tabular columns (`none` = column absent for this row / KeyError on access);
`prompt` is the conversation column added by templating (`none` = not yet
added). -/
structure Ex where
  question : Option String
  problem : Option String
  answer : Option Val
  source : Option String
  prompt : Option (List Msg)
deriving DecidableEq

/-- A CSV file as read by `pd.read_csv`: its rows, plus whether the `answer`
column is present in the header (`'answer' in df.columns`). -/
structure Csv where
  hasAnswerCol : Bool
  rows : List Ex
deriving DecidableEq

/-- pandas column consistency: if the `answer` column is absent from the
header, no row carries an answer value. -/
def csvConsistent (c : Csv) : Bool :=
  c.hasAnswerCol || c.rows.all fun e => e.answer.isNone

/-- A HuggingFace `DatasetDict` with a train and a test split. -/
structure DatasetDict where
  train : List Ex
  test : List Ex
deriving DecidableEq

/-! ### The seeded deterministic shuffle primitive -/

/-- One step of a 64-bit linear congruential generator: the model of the
external PRNG stream behind `random_state=seed`. -/
def lcgNext (s : Nat) : Nat :=
  (6364136223846793005 * s + 1442695040888963407) % 18446744073709551616

/-- Seeded selection shuffle of an index pool: repeatedly draw the next PRNG
value and move the index at that position from the pool to the output.  The
fuel argument only bounds recursion depth; `fuel = pool.length` consumes the
whole pool. -/
def shuffleGo : Nat → Nat → List Nat → List Nat
  | 0, _, _ => []
  | fuel + 1, s, pool =>
      if hp : pool = [] then []
      else
        let j := s % pool.length
        pool.get ⟨j, Nat.mod_lt _ (List.length_pos.mpr hp)⟩ ::
          shuffleGo fuel (lcgNext s) (pool.eraseIdx j)

/-- The permutation (as a list of source indices) that the seeded shuffle
applies to an input of length `n`: fully determined by `seed` and `n`. -/
def shufflePerm (seed n : Nat) : List Nat :=
  shuffleGo n seed (List.range n)

/-- Apply an index permutation to a list: position `k` of the output holds the
element at source index `p[k]`. -/
def applyPerm (p : List Nat) (l : List α) : List α :=
  p.filterMap fun i => l[i]?

/-- The seeded deterministic shuffle: apply the permutation determined by the
seed and the input length. -/
def shuffle (seed : Nat) (l : List α) : List α :=
  applyPerm (shufflePerm seed l.length) l

/-! ### Splitter (`load_single_csv`) -/

/-- The float `train_ratio`, modelled as an explicit non-negative rational
`num / den`. -/
structure Frac where
  num : Nat
  den : Nat
deriving DecidableEq

/-- The rational value of a `Frac`. -/
def Frac.toRat (r : Frac) : ℚ := (r.num : ℚ) / (r.den : ℚ)

/-- `int(len(df) * train_ratio)`: the cut position of the train/test split,
`⌊n * num / den⌋` computed in exact arithmetic. -/
def splitCut (n : Nat) (r : Frac) : Nat :=
  n * r.num / r.den

/-- The Splitter: shuffle the record set with the seed, then cut at
`splitCut`; indices `[0, cut)` become train, `[cut, len)` become test
(the `df[:split_idx]` / `df[split_idx:]` slices of `load_single_csv`). -/
def split (S : List Ex) (r : Frac) (seed : Nat) : List Ex × List Ex :=
  let sh := shuffle seed S
  (sh.take (splitCut S.length r), sh.drop (splitCut S.length r))

/-- `df['answer'] = df['answer'].astype(str)` applied to one row. -/
def stringifyAnswer (e : Ex) : Ex :=
  { e with answer := e.answer.map fun a => .vStr (valStr a) }

/-- The answer-coercion step of `load_single_csv`: performed only when the
`answer` column is present (`if 'answer' in df.columns`). -/
def coerceAnswers (c : Csv) : List Ex :=
  if c.hasAnswerCol then c.rows.map stringifyAnswer else c.rows

/-- `load_single_csv`: read one CSV, coerce answers to strings, shuffle with
the seed and split at the train ratio. -/
def load_single_csv (c : Csv) (r : Frac) (seed : Nat) : List Ex × List Ex :=
  split (coerceAnswers c) r seed

/-! ### Combiner (`load_all_csv_files`) -/

/-- The Combiner: concatenate all train halves in source order into one
sequence and all test halves into another (`concatenate_datasets`), then
re-shuffle each concatenation once with the same seed
(`combined.shuffle(seed=seed)`). -/
def combine (splits : List (List Ex × List Ex)) (seed : Nat) :
    List Ex × List Ex :=
  (shuffle seed (splits.map Prod.fst).flatten,
   shuffle seed (splits.map Prod.snd).flatten)

/-- `load_all_csv_files`: each entry of `csvs` is `some` a readable CSV or
`none` for a missing file (`os.path.exists` false), which is skipped.  If no
file loaded, the fatal "no data" condition is signalled (`return None`);
otherwise the per-source splits are combined and re-shuffled. -/
def load_all_csv_files (csvs : List (Option Csv)) (r : Frac) (seed : Nat) :
    Option DatasetDict :=
  let splits := csvs.filterMap (Option.map fun c => load_single_csv c r seed)
  if splits.isEmpty then none
  else
    let c := combine splits seed
    some ⟨c.1, c.2⟩

/-! ### Prompt Templater (`data_processing.py`) -/

/-- The literal user-turn wrapper of the templaters. -/
def userFmt (t : String) : String := "\n\nPROBLEM: " ++ t ++ "\n\n"

/-- Mock script arguments (`ScriptArgs` of `lifesnaps_healthcare.py`). -/
structure ScriptArgs where
  sys_prompt_name : String
  task_spec : String

/-- Modelled from the spec: `get_sys_prompt` lives in `system_prompts.py`,
which is not part of the sources; per the spec a PromptVariant is a named,
immutable system instruction string, so the lookup is modelled as a total
function from the variant name to its system text. -/
def get_sys_prompt (name : String) : String :=
  "SYSTEM PROMPT " ++ name

/-- `make_generation_conversation`: build the two-turn prompt from the
`question` field if present, else from the `problem` field; a row lacking
both raises `KeyError` (`none`).  `dataset.map` merges the returned `prompt`
column with the existing columns, so all other fields pass through. -/
def make_generation_conversation (sys_prompt : String) (e : Ex) : Option Ex :=
  match e.question with
  | some q =>
      some { e with prompt := some [⟨"system", sys_prompt⟩, ⟨"user", userFmt q⟩] }
  | none =>
      match e.problem with
      | some p =>
          some { e with prompt := some [⟨"system", sys_prompt⟩, ⟨"user", userFmt p⟩] }
      | none => none

/-- `Dataset.map(f)` where `f` may raise: the whole map fails (`none`) as soon
as one row fails — no row is silently dropped. -/
def optionMap (f : α → Option β) : List α → Option (List β)
  | [] => some []
  | a :: t =>
      match f a, optionMap f t with
      | some b, some bt => some (b :: bt)
      | _, _ => none

/-- `make_generation_dataset`: map the conversation builder over both splits. -/
def make_generation_dataset (ds : DatasetDict) (sys_prompt : String) :
    Option DatasetDict :=
  match optionMap (make_generation_conversation sys_prompt) ds.train,
        optionMap (make_generation_conversation sys_prompt) ds.test with
  | some tr, some te => some ⟨tr, te⟩
  | _, _ => none

/-- `process_dataset`: look up the system prompt, then template only when
`task_spec == "gen"`; any other task spec returns the dataset unchanged. -/
def process_dataset (ds : DatasetDict) (args : ScriptArgs) : Option DatasetDict :=
  let sys_prompt := get_sys_prompt args.sys_prompt_name
  if args.task_spec = "gen" then make_generation_dataset ds sys_prompt
  else some ds

/-- ASCII lowering of one character (`str.lower`). -/
def lowerChar (c : Char) : Char :=
  if 65 ≤ c.toNat ∧ c.toNat ≤ 90 then Char.ofNat (c.toNat + 32) else c

/-- ASCII lowering of a string (`source.lower()`). -/
def lowerStr (s : String) : String := ⟨s.data.map lowerChar⟩

/-- Bool-valued list-of-chars equality test used by the substring check. -/
def isPre : List Char → List Char → Bool
  | [], _ => true
  | _ :: _, [] => false
  | a :: as, b :: bs => a = b && isPre as bs

/-- Python `pat in s` substring containment over character lists. -/
def hasSub (pat : List Char) : List Char → Bool
  | [] => pat.isEmpty
  | b :: bs => isPre pat (b :: bs) || hasSub pat bs

/-- The per-source answer-format instruction of `make_healthcare_dataset`. -/
def healthcareInstr (source : String) : String :=
  let s := (lowerStr source).data
  if hasSub "fatigue".data s then
    " Your prediction should be a single integer from 0 to 5. Only provide the predicted value within the <answer> </answer> tags."
  else if hasSub "readiness".data s then
    " Your prediction should be a single integer from 0 to 10. Only provide the predicted value within the <answer> </answer> tags."
  else if hasSub "sleep_quality".data s then
    " Your prediction should be a single integer from 1 to 5. Only provide the predicted value within the <answer> </answer> tags."
  else if hasSub "stress".data s then
    " Your prediction should be a single integer from 0 to 5. Only provide the predicted value within the <answer> </answer> tags."
  else
    " Only provide the predicted value within the <answer> </answer> tags."

/-- The per-row transform of `make_healthcare_dataset`: reads `problem`
(KeyError if absent) and `answer` (KeyError if absent), optionally appends the
source-specific instruction to the problem text, templates the two-turn
prompt, stringifies the answer, and defaults a missing `source` to
`"healthcare"`. -/
def make_healthcare_example (sys_prompt : String) (add_instruction : Bool)
    (e : Ex) : Option Ex :=
  match e.problem, e.answer with
  | some p, some a =>
      let problem_text :=
        if add_instruction then p ++ healthcareInstr (e.source.getD "PMData")
        else p
      some { e with
              prompt := some [⟨"system", sys_prompt⟩,
                              ⟨"user", userFmt problem_text⟩],
              answer := some (.vStr (valStr a)),
              source := some (e.source.getD "healthcare") }
  | _, _ => none

/-- `make_healthcare_dataset`: map the healthcare transform over a dataset. -/
def make_healthcare_dataset (ds : List Ex) (sys_prompt : String)
    (add_instruction : Bool) : Option (List Ex) :=
  optionMap (make_healthcare_example sys_prompt add_instruction) ds

/-! ### Variant Orchestrator (`lifesnaps_healthcare.py`) -/

/-- The fixed list of prompt variants (`ALL_SYS_PROMPTS`). -/
def ALL_SYS_PROMPTS : List String := ["gen", "tac", "tabc", "tabc_long"]

/-- `create_dataset_for_prompt`: process the shared raw corpus under one
variant (`ScriptArgs(sys_prompt_name=name, task_spec="gen")`). -/
def create_dataset_for_prompt (raw : DatasetDict) (sys_prompt_name : String) :
    Option DatasetDict :=
  process_dataset raw ⟨sys_prompt_name, "gen"⟩

/-- `create_datasets_for_all_prompts`: load, split and combine the raw corpus
once; abort (`return`, i.e. `none`) if the Combiner signalled "no data";
otherwise template the single raw corpus once per variant. -/
def create_datasets_for_all_prompts (csvs : List (Option Csv)) (r : Frac)
    (seed : Nat) : Option (List (String × DatasetDict)) :=
  match load_all_csv_files csvs r seed with
  | none => none
  | some raw =>
      optionMap
        (fun name => (create_dataset_for_prompt raw name).map fun d => (name, d))
        ALL_SYS_PROMPTS

/-! ### Observation helpers used by the statements -/

/-- The `(problem, answer, source)` triple of a row. -/
def exTriple (e : Ex) : Option String × Option Val × Option String :=
  (e.problem, e.answer, e.source)

/-- Erase the system-turn content of a row's prompt, keeping everything else:
two rows with equal `stripSys` images differ at most in the system text. -/
def stripSys (e : Ex) : Ex :=
  { e with
      prompt := e.prompt.map (List.map fun m =>
        if m.role = "system" then ⟨m.role, ""⟩ else m) }

/-- The user-turn content of a row's prompt, when present. -/
def userTurn (e : Ex) : Option String :=
  e.prompt.bind fun p => (p[1]?).map Msg.content

/-- Whether an answer cell, if any, is a string (text) value. -/
def ansValStr : Option Val → Bool
  | some (.vInt _) => false
  | some (.vFloat _) => false
  | _ => true

/-- Whether a row's answer cell, if any, is a string (text) value. -/
def answerIsStrB (e : Ex) : Bool :=
  ansValStr e.answer

/-! ### The shuffle is a seed-and-length-determined permutation -/

theorem get_cons_eraseIdx_perm {α : Type} : ∀ (l : List α) (j : Nat) (h : j < l.length),
    (l.get ⟨j, h⟩ :: l.eraseIdx j).Perm l
  | a :: t, 0, _ => by simp
  | a :: t, j + 1, h => by
    have ih := get_cons_eraseIdx_perm t j (by simpa using h)
    simpa using ((List.Perm.swap a _ _).trans (ih.cons a))

theorem shuffleGo_perm : ∀ (fuel s : Nat) (pool : List Nat), pool.length ≤ fuel →
    (shuffleGo fuel s pool).Perm pool
  | 0, _, pool, h => by
    have hp : pool = [] := List.length_eq_zero.mp (Nat.le_zero.mp h)
    subst hp
    simp [shuffleGo]
  | fuel + 1, s, pool, h => by
    by_cases hp : pool = []
    · subst hp
      simp [shuffleGo]
    · have hj : s % pool.length < pool.length :=
        Nat.mod_lt _ (List.length_pos.mpr hp)
      have hlen : (pool.eraseIdx (s % pool.length)).length ≤ fuel := by
        rw [List.length_eraseIdx, if_pos hj]
        omega
      have ih := shuffleGo_perm fuel (lcgNext s) _ hlen
      show (shuffleGo (fuel + 1) s pool).Perm pool
      rw [shuffleGo, dif_neg hp]
      exact (ih.cons _).trans (get_cons_eraseIdx_perm pool _ hj)

theorem shufflePerm_perm (seed n : Nat) : (shufflePerm seed n).Perm (List.range n) :=
  shuffleGo_perm n seed (List.range n) (by simp)

theorem filterMap_getElem_range {α : Type} :
    ∀ l : List α, (List.range l.length).filterMap (fun i => l[i]?) = l
  | [] => rfl
  | a :: t => by
    rw [List.length_cons, List.range_succ_eq_map, List.filterMap_cons]
    have hc : ((fun i => (a :: t)[i]?) ∘ Nat.succ) = fun i => t[i]? := by
      funext i
      simp
    simp only [List.getElem?_cons_zero, List.filterMap_map, hc,
      filterMap_getElem_range t]

theorem applyPerm_range {α : Type} (l : List α) :
    applyPerm (List.range l.length) l = l :=
  filterMap_getElem_range l

theorem applyPerm_perm {α : Type} {p : List Nat} {l : List α}
    (hp : p.Perm (List.range l.length)) : (applyPerm p l).Perm l := by
  refine (hp.filterMap _).trans ?_
  rw [show List.filterMap (fun i => l[i]?) (List.range l.length) = l from
    filterMap_getElem_range l]

theorem applyPerm_nil {α : Type} (p : List Nat) : applyPerm p ([] : List α) = [] := by
  induction p with
  | nil => rfl
  | cons a t ih => simp [applyPerm, List.filterMap_cons, ih]

theorem shuffle_perm {α : Type} (seed : Nat) (l : List α) : (shuffle seed l).Perm l :=
  applyPerm_perm (shufflePerm_perm seed l.length)

theorem shuffle_length {α : Type} (seed : Nat) (l : List α) :
    (shuffle seed l).length = l.length :=
  (shuffle_perm seed l).length_eq

/-! ### C2: determinism of split and combine -/

/-- C2: for a fixed seed and fixed input, the orderings produced by `split`
and `combine` are exactly the application of the permutation `shufflePerm`,
which is a genuine permutation of the index range and is fully determined by
the seed and the input length alone (the same permutation is applied to any
input of the same length); repeated evaluation on the same input therefore
yields bit-identical train/test orderings. -/
theorem split_combine_deterministic (S : List Ex)
    (ss : List (List Ex × List Ex)) (r : Frac) (seed : Nat) :
    (shufflePerm seed S.length).Perm (List.range S.length) ∧
    split S r seed =
      ((applyPerm (shufflePerm seed S.length) S).take (splitCut S.length r),
       (applyPerm (shufflePerm seed S.length) S).drop (splitCut S.length r)) ∧
    (∀ T : List Ex, T.length = S.length →
      shuffle seed T = applyPerm (shufflePerm seed S.length) T) ∧
    combine ss seed =
      (applyPerm (shufflePerm seed (ss.map Prod.fst).flatten.length)
        (ss.map Prod.fst).flatten,
       applyPerm (shufflePerm seed (ss.map Prod.snd).flatten.length)
        (ss.map Prod.snd).flatten) := by
  refine ⟨shufflePerm_perm seed S.length, rfl, ?_, rfl⟩
  intro T hT
  rw [shuffle, hT]

/-- Witness for C2 at concrete inputs: the inner determinism clause applied to
two distinct same-length lists. -/
theorem split_combine_deterministic_witness :
    shuffle 42 [({ question := none, problem := some "p2", answer := none,
                   source := none, prompt := none } : Ex)] =
      applyPerm (shufflePerm 42 1)
        [({ question := none, problem := some "p2", answer := none,
            source := none, prompt := none } : Ex)] :=
  (split_combine_deterministic
      [{ question := none, problem := some "p1", answer := none,
         source := none, prompt := none }] [] ⟨4, 5⟩ 42).2.2.1
    [{ question := none, problem := some "p2", answer := none,
       source := none, prompt := none }] rfl

/-! ### C3: the Splitter contract -/

/-- C3: `split S r seed` permutes all records of `S` via the seeded
deterministic shuffle and cuts at `⌊len * ratio⌋` (`splitCut`, which equals
the rational floor): indices `[0, cut)` form the train half and `[cut, len)`
the test half, `len train + len test = len S` exactly, no record is
duplicated or dropped (the two halves together are a permutation of `S`), and
an empty `S` yields two empty sequences. -/
theorem split_spec (S : List Ex) (r : Frac) (seed : Nat)
    (h0 : 0 < r.num) (h1 : r.num < r.den) :
    ((split S r seed).1 ++ (split S r seed).2).Perm S ∧
    (split S r seed).1.length + (split S r seed).2.length = S.length ∧
    (split S r seed).1 = (shuffle seed S).take (splitCut S.length r) ∧
    (split S r seed).2 = (shuffle seed S).drop (splitCut S.length r) ∧
    splitCut S.length r = ⌊(S.length : ℚ) * r.toRat⌋₊ ∧
    (S = [] → split S r seed = ([], [])) := by
  have hden : (r.den : ℚ) ≠ 0 := by
    have : 0 < r.den := lt_trans h0 h1
    exact_mod_cast this.ne'
  refine ⟨?_, ?_, rfl, rfl, ?_, ?_⟩
  · rw [show (split S r seed).1 ++ (split S r seed).2 = shuffle seed S by
      simp [split]]
    exact shuffle_perm seed S
  · have h := congrArg List.length (List.take_append_drop (splitCut S.length r) (shuffle seed S))
    rw [List.length_append] at h
    simpa [split, shuffle_length] using h
  · rw [splitCut, Frac.toRat,
      show (S.length : ℚ) * ((r.num : ℚ) / (r.den : ℚ)) =
        ((S.length * r.num : ℕ) : ℚ) / ((r.den : ℕ) : ℚ) by push_cast; ring,
      Nat.floor_div_nat, Nat.floor_natCast]
  · intro hS
    subst hS
    simp [split, shuffle, applyPerm_nil]

/-- Witness for C3 at a concrete input: a two-record source set at ratio
4/5 and seed 42. -/
theorem split_spec_witness :
    (0 : Nat) < 4 ∧ (4 : Nat) < 5 ∧
    (((split [({ question := none, problem := some "a", answer := none,
                 source := none, prompt := none } : Ex),
              { question := none, problem := some "b", answer := none,
                source := none, prompt := none }] ⟨4, 5⟩ 42).1 ++
      (split [({ question := none, problem := some "a", answer := none,
                 source := none, prompt := none } : Ex),
              { question := none, problem := some "b", answer := none,
                source := none, prompt := none }] ⟨4, 5⟩ 42).2).Perm
      [{ question := none, problem := some "a", answer := none,
         source := none, prompt := none },
       { question := none, problem := some "b", answer := none,
         source := none, prompt := none }]) :=
  ⟨by decide, by decide,
    (split_spec
      [{ question := none, problem := some "a", answer := none,
         source := none, prompt := none },
       { question := none, problem := some "b", answer := none,
         source := none, prompt := none }] ⟨4, 5⟩ 42
      (by decide) (by decide)).1⟩

/-! ### C4: the Combiner contract -/

theorem split_lengths (S : List Ex) (r : Frac) (seed : Nat) :
    (split S r seed).1.length = min (splitCut S.length r) S.length ∧
    (split S r seed).2.length = S.length - splitCut S.length r := by
  constructor
  · simp [split, List.length_take, shuffle_length]
  · simp [split, List.length_drop, shuffle_length]

/-- C4: `combine` concatenates all per-source train halves in source-group
order into one sequence and all test halves into another, then applies the
same shuffle primitive with the same seed independently to each; the shuffle
only reorders (each combined half is a permutation of the corresponding
concatenation), so the combined train length is the sum of the per-source
train lengths, likewise for test; in particular sources of 10 and 4 records
at ratio 4/5 give a combined train of 11 and a combined test of 3. -/
theorem combine_spec (ss : List (List Ex × List Ex)) (seed : Nat) :
    (combine ss seed).1 = shuffle seed (ss.map Prod.fst).flatten ∧
    (combine ss seed).2 = shuffle seed (ss.map Prod.snd).flatten ∧
    ((combine ss seed).1).Perm (ss.map Prod.fst).flatten ∧
    ((combine ss seed).2).Perm (ss.map Prod.snd).flatten ∧
    (combine ss seed).1.length = (ss.map fun pr => pr.1.length).sum ∧
    (combine ss seed).2.length = (ss.map fun pr => pr.2.length).sum ∧
    (∀ A B : List Ex, A.length = 10 → B.length = 4 →
      (combine [split A ⟨4, 5⟩ seed, split B ⟨4, 5⟩ seed] seed).1.length = 11 ∧
      (combine [split A ⟨4, 5⟩ seed, split B ⟨4, 5⟩ seed] seed).2.length = 3) := by
  refine ⟨rfl, rfl, shuffle_perm _ _, shuffle_perm _ _, ?_, ?_, ?_⟩
  · rw [combine, shuffle_length, List.length_flatten, List.map_map]
    rfl
  · rw [combine, shuffle_length, List.length_flatten, List.map_map]
    rfl
  · intro A B hA hB
    have htrA := (split_lengths A ⟨4, 5⟩ seed).1
    have hteA := (split_lengths A ⟨4, 5⟩ seed).2
    have htrB := (split_lengths B ⟨4, 5⟩ seed).1
    have hteB := (split_lengths B ⟨4, 5⟩ seed).2
    rw [hA] at htrA hteA
    rw [hB] at htrB hteB
    constructor
    · rw [combine, shuffle_length, List.length_flatten]
      simp only [List.map_cons, List.map_nil, List.sum_cons, List.sum_nil]
      rw [htrA, htrB]
      decide
    · rw [combine, shuffle_length, List.length_flatten]
      simp only [List.map_cons, List.map_nil, List.sum_cons, List.sum_nil]
      rw [hteA, hteB]
      decide

/-- A record with only a `problem` field, used in concrete witnesses. -/
def rowP (p : String) : Ex :=
  { question := none, problem := some p, answer := none, source := none,
    prompt := none }

/-- Witness for C4 at concrete inputs: two concrete sources of 10 and 4
records at ratio 4/5 and seed 42 combine into train 11 / test 3. -/
theorem combine_spec_witness :
    (combine [split (List.replicate 10 (rowP "a")) ⟨4, 5⟩ 42,
      split (List.replicate 4 (rowP "b")) ⟨4, 5⟩ 42] 42).1.length = 11 ∧
    (combine [split (List.replicate 10 (rowP "a")) ⟨4, 5⟩ 42,
      split (List.replicate 4 (rowP "b")) ⟨4, 5⟩ 42] 42).2.length = 3 :=
  (combine_spec [split (List.replicate 10 (rowP "a")) ⟨4, 5⟩ 42,
      split (List.replicate 4 (rowP "b")) ⟨4, 5⟩ 42] 42).2.2.2.2.2.2
    (List.replicate 10 (rowP "a")) (List.replicate 4 (rowP "b"))
    (by decide) (by decide)

/-! ### Lemmas about the failing map -/

theorem optionMap_mem {α β : Type} {f : α → Option β} :
    ∀ {l : List α} {out : List β}, optionMap f l = some out →
      ∀ b ∈ out, ∃ a ∈ l, f a = some b := by
  intro l
  induction l with
  | nil =>
    intro out h b hb
    simp [optionMap] at h
    subst h
    simp at hb
  | cons a t ih =>
    intro out h b hb
    cases hf : f a with
    | none => simp [optionMap, hf] at h
    | some v =>
      cases ht : optionMap f t with
      | none => simp [optionMap, hf, ht] at h
      | some vt =>
        simp [optionMap, hf, ht] at h
        subst h
        rcases List.mem_cons.mp hb with hb | hb
        · exact ⟨a, List.mem_cons_self a t, by rw [hf, hb]⟩
        · obtain ⟨a', ha', hfa'⟩ := ih ht b hb
          exact ⟨a', List.mem_cons_of_mem a ha', hfa'⟩

theorem optionMap_none {α β : Type} {f : α → Option β} {a : α} :
    ∀ {l : List α}, a ∈ l → f a = none → optionMap f l = none := by
  intro l
  induction l with
  | nil => intro h; simp at h
  | cons b t ih =>
    intro hm hf
    rcases List.mem_cons.mp hm with hm | hm
    · subst hm
      simp [optionMap, hf]
    · rw [optionMap, ih hm hf]
      cases f b <;> rfl

theorem optionMap_map_eq {α β γ : Type} {f : α → Option β} {g : β → γ} {h : α → γ}
    (H : ∀ a b, f a = some b → g b = h a) :
    ∀ {l : List α} {out : List β}, optionMap f l = some out →
      out.map g = l.map h := by
  intro l
  induction l with
  | nil =>
    intro out hm
    simp [optionMap] at hm
    subst hm
    rfl
  | cons a t ih =>
    intro out hm
    cases hf : f a with
    | none => simp [optionMap, hf] at hm
    | some v =>
      cases ht : optionMap f t with
      | none => simp [optionMap, hf, ht] at hm
      | some vt =>
        simp [optionMap, hf, ht] at hm
        subst hm
        simp [List.map_cons, H a v hf, ih ht]

theorem optionMap_pair {α β γ : Type} {f₁ f₂ : α → Option β} {g : β → γ}
    (H : ∀ a b₁ b₂, f₁ a = some b₁ → f₂ a = some b₂ → g b₁ = g b₂) :
    ∀ {l : List α} {o₁ o₂ : List β},
      optionMap f₁ l = some o₁ → optionMap f₂ l = some o₂ →
      o₁.map g = o₂.map g := by
  intro l
  induction l with
  | nil =>
    intro o₁ o₂ h₁ h₂
    simp [optionMap] at h₁ h₂
    subst h₁
    subst h₂
    rfl
  | cons a t ih =>
    intro o₁ o₂ h₁ h₂
    cases hf₁ : f₁ a with
    | none => simp [optionMap, hf₁] at h₁
    | some v₁ =>
      cases ht₁ : optionMap f₁ t with
      | none => simp [optionMap, hf₁, ht₁] at h₁
      | some vt₁ =>
        cases hf₂ : f₂ a with
        | none => simp [optionMap, hf₂] at h₂
        | some v₂ =>
          cases ht₂ : optionMap f₂ t with
          | none => simp [optionMap, hf₂, ht₂] at h₂
          | some vt₂ =>
            simp [optionMap, hf₁, ht₁] at h₁
            simp [optionMap, hf₂, ht₂] at h₂
            subst h₁
            subst h₂
            simp [List.map_cons, H a v₁ v₂ hf₁ hf₂, ih ht₁ ht₂]

/-! ### Record-level templater lemmas -/

theorem conv_fields {sp : String} {e o : Ex}
    (h : make_generation_conversation sp e = some o) :
    o.question = e.question ∧ o.problem = e.problem ∧ o.answer = e.answer ∧
    o.source = e.source ∧
    ∃ u, o.prompt = some [⟨"system", sp⟩, ⟨"user", u⟩] := by
  cases hq : e.question with
  | some q =>
    simp [make_generation_conversation, hq] at h
    subst h
    simp [hq]
  | none =>
    cases hp : e.problem with
    | some p =>
      simp [make_generation_conversation, hq, hp] at h
      subst h
      simp [hq, hp]
    | none => simp [make_generation_conversation, hq, hp] at h

theorem healthcare_fields {sp : String} {b : Bool} {e o : Ex}
    (h : make_healthcare_example sp b e = some o) :
    ∃ p a, e.problem = some p ∧ e.answer = some a ∧
      o.prompt = some [⟨"system", sp⟩,
        ⟨"user", userFmt (if b then p ++ healthcareInstr (e.source.getD "PMData") else p)⟩] ∧
      o.answer = some (.vStr (valStr a)) := by
  cases hp : e.problem with
  | none => simp [make_healthcare_example, hp] at h
  | some p =>
    cases ha : e.answer with
    | none => simp [make_healthcare_example, hp, ha] at h
    | some a =>
      refine ⟨p, a, rfl, rfl, ?_⟩
      simp [make_healthcare_example, hp, ha] at h
      subst h
      constructor <;> rfl

/-! ### C6: prompt shape -/

/-- C6: every templated row's `prompt` has exactly two entries in the fixed
order system-then-user — entry 0 has role `"system"` and carries the
variant's system text, entry 1 has role `"user"` and carries the problem
content — for both `make_generation_dataset` and `make_healthcare_dataset`
outputs. -/
theorem prompt_two_turn_shape (ds : DatasetDict) (sp : String)
    (out : DatasetDict) (h : make_generation_dataset ds sp = some out) :
    (∀ e ∈ out.train, ∃ u, e.prompt = some [⟨"system", sp⟩, ⟨"user", u⟩]) ∧
    (∀ e ∈ out.test, ∃ u, e.prompt = some [⟨"system", sp⟩, ⟨"user", u⟩]) ∧
    (∀ (l out' : List Ex) (b : Bool), make_healthcare_dataset l sp b = some out' →
      ∀ e ∈ out', ∃ u, e.prompt = some [⟨"system", sp⟩, ⟨"user", u⟩]) := by
  have htr : optionMap (make_generation_conversation sp) ds.train = some out.train ∧
      optionMap (make_generation_conversation sp) ds.test = some out.test := by
    cases h1 : optionMap (make_generation_conversation sp) ds.train with
    | none => rw [make_generation_dataset, h1] at h; cases h
    | some tr =>
      cases h2 : optionMap (make_generation_conversation sp) ds.test with
      | none => rw [make_generation_dataset, h1, h2] at h; cases h
      | some te =>
        rw [make_generation_dataset, h1, h2] at h
        cases h
        exact ⟨rfl, rfl⟩
  refine ⟨?_, ?_, ?_⟩
  · intro e he
    obtain ⟨a, _, ha⟩ := optionMap_mem htr.1 e he
    exact (conv_fields ha).2.2.2.2
  · intro e he
    obtain ⟨a, _, ha⟩ := optionMap_mem htr.2 e he
    exact (conv_fields ha).2.2.2.2
  · intro l out' b h' e he
    obtain ⟨a, _, ha⟩ := optionMap_mem h' e he
    obtain ⟨p, v, _, _, hpr, _⟩ := healthcare_fields ha
    exact ⟨_, hpr⟩

/-- Witness for C6: a concrete one-row dataset templated with a concrete
system prompt. -/
theorem prompt_two_turn_shape_witness :
    ∃ u, (((make_generation_dataset ⟨[rowP "w"], []⟩ "S").getD ⟨[], []⟩).train.getD 0
        (rowP "w")).prompt = some [⟨"system", "S"⟩, ⟨"user", u⟩] := by
  have h := (prompt_two_turn_shape ⟨[rowP "w"], []⟩ "S"
    ((make_generation_dataset ⟨[rowP "w"], []⟩ "S").getD ⟨[], []⟩) (by decide)).1
  exact h _ (by decide)

/-! ### C7: the user-turn content rule -/

/-- A record carrying both a `question` and a `problem` field, with an answer
and a source: concrete input of the C7 counterexample. -/
def rowQP : Ex :=
  { question := some "Q", problem := some "P", answer := some (.vStr "1"),
    source := some "src", prompt := none }

/-- C7 counterexample: `make_healthcare_dataset` (cited by the claim) does
not follow the stated rule.  On a record whose `question` field is present
(`"Q"`), it builds the user turn from the `problem` field with an appended
instruction, not from the unmodified `question` text, so the produced
user-turn content differs from `"\n\nPROBLEM: Q\n\n"`. -/
theorem user_turn_literal_counterexample :
    (make_healthcare_dataset [rowQP] "s" true).map (List.map userTurn) =
      some [some (userFmt ("P" ++ healthcareInstr "src"))] ∧
    some (userFmt ("P" ++ healthcareInstr "src")) ≠ some (userFmt "Q") := by
  constructor
  · rfl
  · decide

/-- C7 amended: for `make_generation_conversation` the user-turn content is
exactly `"\n\nPROBLEM: " ++ t ++ "\n\n"` with `t` taken unmodified from
`question` if present, else from `problem`; `make_healthcare_example`,
however, always reads the `problem` field (never `question`) and, when
`add_instruction` is set, appends a source-specific instruction to the
problem text before wrapping it in the same literal pattern. -/
theorem user_turn_content_rule (sp : String) (b : Bool) (e o₁ o₂ : Ex)
    (q p : String) :
    (e.question = some q → make_generation_conversation sp e = some o₁ →
      userTurn o₁ = some (userFmt q)) ∧
    (e.question = none → e.problem = some p →
      make_generation_conversation sp e = some o₁ →
      userTurn o₁ = some (userFmt p)) ∧
    (e.problem = some p → make_healthcare_example sp b e = some o₂ →
      userTurn o₂ = some (userFmt
        (if b then p ++ healthcareInstr (e.source.getD "PMData") else p))) := by
  refine ⟨?_, ?_, ?_⟩
  · intro hq h
    simp [make_generation_conversation, hq] at h
    subst h
    rfl
  · intro hq hp h
    simp [make_generation_conversation, hq, hp] at h
    subst h
    rfl
  · intro hp h
    obtain ⟨p', a, hp', _, hpr, _⟩ := healthcare_fields h
    rw [hp] at hp'
    cases hp'
    rw [userTurn, hpr]
    rfl

/-- Witness for C7 amended: the question-present clause at a concrete record. -/
theorem user_turn_content_rule_witness :
    userTurn ((make_generation_conversation "s" rowQP).getD rowQP) =
      some (userFmt "Q") :=
  (user_turn_content_rule "s" true rowQP
      ((make_generation_conversation "s" rowQP).getD rowQP) rowQP "Q" "P").1
    rfl (by decide)

/-! ### C9: schema violations fail loudly -/

/-- C9: templating a record that lacks both `question` and `problem` raises
(`none`) at the record level, and mapping a dataset containing such a record
fails as a whole — the record is not silently dropped and no ProcessedExample
is produced for it. -/
theorem missing_fields_fail_loudly (sp : String) (e : Ex) (ds : DatasetDict)
    (h1 : e.question = none) (h2 : e.problem = none) :
    make_generation_conversation sp e = none ∧
    (e ∈ ds.train ∨ e ∈ ds.test → make_generation_dataset ds sp = none) := by
  have hc : make_generation_conversation sp e = none := by
    simp [make_generation_conversation, h1, h2]
  refine ⟨hc, ?_⟩
  intro hm
  cases hm with
  | inl hm =>
    rw [make_generation_dataset, optionMap_none hm hc]
  | inr hm =>
    rw [make_generation_dataset, optionMap_none hm hc]
    cases optionMap (make_generation_conversation sp) ds.train <;> rfl

/-- Witness for C9: a concrete record with neither field, inside a concrete
one-row dataset. -/
theorem missing_fields_fail_loudly_witness :
    make_generation_conversation "s"
      { question := none, problem := none, answer := none, source := none,
        prompt := none } = none ∧
    make_generation_dataset
      ⟨[{ question := none, problem := none, answer := none, source := none,
          prompt := none }], []⟩ "s" = none := by
  have h := missing_fields_fail_loudly "s"
    { question := none, problem := none, answer := none, source := none,
      prompt := none }
    ⟨[{ question := none, problem := none, answer := none, source := none,
        prompt := none }], []⟩ rfl rfl
  exact ⟨h.1, h.2 (Or.inl (by decide))⟩

/-! ### C10: process_dataset is the identity off the "gen" task -/

/-- C10: `process_dataset` applies prompt templating only when
`task_spec = "gen"`; for every dataset and every other `task_spec` value it
returns the input dataset unchanged — no prompt added, no error raised. -/
theorem process_dataset_non_gen_identity (ds : DatasetDict) (args : ScriptArgs)
    (h : args.task_spec ≠ "gen") : process_dataset ds args = some ds := by
  simp [process_dataset, h]

/-- Witness for C10: a concrete dataset and a concrete non-"gen" task spec. -/
theorem process_dataset_non_gen_identity_witness :
    process_dataset ⟨[rowQP], [rowP "x"]⟩ ⟨"tabc", "eval"⟩ =
      some ⟨[rowQP], [rowP "x"]⟩ :=
  process_dataset_non_gen_identity ⟨[rowQP], [rowP "x"]⟩ ⟨"tabc", "eval"⟩
    (by decide)

/-! ### C8: the fatal no-data condition -/

/-- C8: when no source loads successfully (every configured file is missing),
`load_all_csv_files` signals the fatal "no data" condition (`none`) and the
Orchestrator `create_datasets_for_all_prompts` aborts before invoking any
Templater: no ProcessedCorpus is produced for any variant. -/
theorem no_data_aborts (csvs : List (Option Csv)) (r : Frac) (seed : Nat)
    (h : ∀ c ∈ csvs, c = none) :
    load_all_csv_files csvs r seed = none ∧
    create_datasets_for_all_prompts csvs r seed = none := by
  have hs : csvs.filterMap (Option.map fun c => load_single_csv c r seed) = [] := by
    rw [List.filterMap_eq_nil_iff]
    intro a ha
    rw [h a ha]
    rfl
  have hl : load_all_csv_files csvs r seed = none := by
    rw [load_all_csv_files]
    simp [hs]
  refine ⟨hl, ?_⟩
  rw [create_datasets_for_all_prompts, hl]

/-- Witness for C8: two configured sources, both missing. -/
theorem no_data_aborts_witness :
    load_all_csv_files [none, none] ⟨4, 5⟩ 42 = none ∧
    create_datasets_for_all_prompts [none, none] ⟨4, 5⟩ 42 = none :=
  no_data_aborts [none, none] ⟨4, 5⟩ 42 (by decide)

/-! ### Decomposition and membership lemmas for the loader and orchestrator -/

theorem make_generation_dataset_decomp {ds : DatasetDict} {sp : String}
    {out : DatasetDict} (h : make_generation_dataset ds sp = some out) :
    optionMap (make_generation_conversation sp) ds.train = some out.train ∧
    optionMap (make_generation_conversation sp) ds.test = some out.test := by
  cases h1 : optionMap (make_generation_conversation sp) ds.train with
  | none => rw [make_generation_dataset, h1] at h; cases h
  | some tr =>
    cases h2 : optionMap (make_generation_conversation sp) ds.test with
    | none => rw [make_generation_dataset, h1, h2] at h; cases h
    | some te =>
      rw [make_generation_dataset, h1, h2] at h
      cases h
      exact ⟨rfl, rfl⟩

theorem create_dataset_for_prompt_eq (raw : DatasetDict) (name : String) :
    create_dataset_for_prompt raw name =
      make_generation_dataset raw (get_sys_prompt name) := by
  simp [create_dataset_for_prompt, process_dataset]

theorem createAll_decomp {csvs : List (Option Csv)} {r : Frac} {seed : Nat}
    {results : List (String × DatasetDict)}
    (h : create_datasets_for_all_prompts csvs r seed = some results) :
    ∃ raw, load_all_csv_files csvs r seed = some raw ∧
      optionMap (fun name =>
          (create_dataset_for_prompt raw name).map fun d => (name, d))
        ALL_SYS_PROMPTS = some results := by
  cases hl : load_all_csv_files csvs r seed with
  | none => rw [create_datasets_for_all_prompts, hl] at h; cases h
  | some raw =>
    rw [create_datasets_for_all_prompts, hl] at h
    exact ⟨raw, rfl, h⟩

theorem createAll_mem {results : List (String × DatasetDict)} {raw : DatasetDict}
    (hopt : optionMap (fun name =>
        (create_dataset_for_prompt raw name).map fun d => (name, d))
      ALL_SYS_PROMPTS = some results) :
    ∀ nd ∈ results, nd.1 ∈ ALL_SYS_PROMPTS ∧
      create_dataset_for_prompt raw nd.1 = some nd.2 := by
  intro nd hnd
  obtain ⟨name, hname, hopt'⟩ := optionMap_mem hopt nd hnd
  cases hc : create_dataset_for_prompt raw name with
  | none => rw [hc] at hopt'; cases hopt'
  | some d =>
    rw [hc] at hopt'
    cases hopt'
    exact ⟨hname, hc⟩

theorem load_all_decomp {csvs : List (Option Csv)} {r : Frac} {seed : Nat}
    {raw : DatasetDict} (h : load_all_csv_files csvs r seed = some raw) :
    raw.train =
      (combine (csvs.filterMap (Option.map fun c => load_single_csv c r seed)) seed).1 ∧
    raw.test =
      (combine (csvs.filterMap (Option.map fun c => load_single_csv c r seed)) seed).2 := by
  by_cases he : (csvs.filterMap (Option.map fun c => load_single_csv c r seed)).isEmpty
  · rw [load_all_csv_files] at h
    simp only [he] at h
    cases h
  · rw [load_all_csv_files] at h
    simp only [he] at h
    rw [if_neg (by simp [he])] at h
    cases h
    exact ⟨rfl, rfl⟩

theorem combine_mem_train {ss : List (List Ex × List Ex)} {seed : Nat} {e : Ex}
    (h : e ∈ (combine ss seed).1) : ∃ pr ∈ ss, e ∈ pr.1 := by
  rw [combine] at h
  have h' := (shuffle_perm seed (ss.map Prod.fst).flatten).mem_iff.mp h
  obtain ⟨l, hl, hel⟩ := List.mem_flatten.mp h'
  obtain ⟨pr, hpr, hprl⟩ := List.mem_map.mp hl
  exact ⟨pr, hpr, by rw [hprl]; exact hel⟩

theorem combine_mem_test {ss : List (List Ex × List Ex)} {seed : Nat} {e : Ex}
    (h : e ∈ (combine ss seed).2) : ∃ pr ∈ ss, e ∈ pr.2 := by
  rw [combine] at h
  have h' := (shuffle_perm seed (ss.map Prod.snd).flatten).mem_iff.mp h
  obtain ⟨l, hl, hel⟩ := List.mem_flatten.mp h'
  obtain ⟨pr, hpr, hprl⟩ := List.mem_map.mp hl
  exact ⟨pr, hpr, by rw [hprl]; exact hel⟩

theorem split_mem {S : List Ex} {r : Frac} {seed : Nat} {e : Ex} :
    (e ∈ (split S r seed).1 → e ∈ S) ∧ (e ∈ (split S r seed).2 → e ∈ S) := by
  constructor
  · intro h
    exact (shuffle_perm seed S).mem_iff.mp (List.mem_of_mem_take h)
  · intro h
    exact (shuffle_perm seed S).mem_iff.mp (List.mem_of_mem_drop h)

/-! ### C5: answers are string-normalized -/

theorem stringify_answer_str (e : Ex) :
    answerIsStrB (stringifyAnswer e) = true := by
  cases ha : e.answer with
  | none => simp [answerIsStrB, stringifyAnswer, ha, ansValStr]
  | some a => simp [answerIsStrB, stringifyAnswer, ha, ansValStr]

theorem coerce_answers_str {c : Csv} (hc : csvConsistent c = true) :
    ∀ e ∈ coerceAnswers c, answerIsStrB e = true := by
  intro e he
  cases hcol : c.hasAnswerCol with
  | true =>
    rw [coerceAnswers, if_pos hcol] at he
    obtain ⟨a, _, ha⟩ := List.mem_map.mp he
    rw [← ha]
    exact stringify_answer_str a
  | false =>
    rw [coerceAnswers, if_neg (by simp [hcol])] at he
    rw [csvConsistent, hcol, Bool.false_or, List.all_eq_true] at hc
    have := hc e he
    rw [answerIsStrB, Option.isNone_iff_eq_none.mp this]
    rfl

theorem load_single_csv_str {c : Csv} {r : Frac} {seed : Nat}
    (hc : csvConsistent c = true) :
    (∀ e ∈ (load_single_csv c r seed).1, answerIsStrB e = true) ∧
    (∀ e ∈ (load_single_csv c r seed).2, answerIsStrB e = true) := by
  constructor
  · intro e he
    exact coerce_answers_str hc e (split_mem.1 he)
  · intro e he
    exact coerce_answers_str hc e (split_mem.2 he)

theorem conv_answer {sp : String} {e o : Ex}
    (h : make_generation_conversation sp e = some o) : o.answer = e.answer :=
  (conv_fields h).2.2.1

/-- C5: every record leaving the Loader carries a string answer (whatever
numeric type the source used), the generation templater passes answers
through unchanged so every ProcessedExample produced by a full run carries a
text answer, and the healthcare templater's own `str(...)` coercion also
yields text answers. -/
theorem answers_string_normalized (csvs : List (Option Csv)) (r : Frac)
    (seed : Nat) (results : List (String × DatasetDict))
    (hc : (csvs.all fun oc =>
        match oc with | some c => csvConsistent c | none => true) = true)
    (hres : create_datasets_for_all_prompts csvs r seed = some results) :
    (∀ oc ∈ csvs, ∀ c, oc = some c →
      (∀ e ∈ (load_single_csv c r seed).1, answerIsStrB e = true) ∧
      (∀ e ∈ (load_single_csv c r seed).2, answerIsStrB e = true)) ∧
    (∀ nd ∈ results, (∀ e ∈ nd.2.train, answerIsStrB e = true) ∧
      (∀ e ∈ nd.2.test, answerIsStrB e = true)) ∧
    (∀ (ds : DatasetDict) (sp : String) (out : DatasetDict),
      make_generation_dataset ds sp = some out →
      out.train.map Ex.answer = ds.train.map Ex.answer ∧
      out.test.map Ex.answer = ds.test.map Ex.answer) ∧
    (∀ (l : List Ex) (sp : String) (b : Bool) (out : List Ex),
      make_healthcare_dataset l sp b = some out →
      ∀ e ∈ out, answerIsStrB e = true) := by
  have hloader : ∀ oc ∈ csvs, ∀ c, oc = some c →
      (∀ e ∈ (load_single_csv c r seed).1, answerIsStrB e = true) ∧
      (∀ e ∈ (load_single_csv c r seed).2, answerIsStrB e = true) := by
    intro oc hoc c hsome
    subst hsome
    rw [List.all_eq_true] at hc
    exact load_single_csv_str (hc _ hoc)
  have hpass : ∀ (ds : DatasetDict) (sp : String) (out : DatasetDict),
      make_generation_dataset ds sp = some out →
      out.train.map Ex.answer = ds.train.map Ex.answer ∧
      out.test.map Ex.answer = ds.test.map Ex.answer := by
    intro ds sp out h
    obtain ⟨h1, h2⟩ := make_generation_dataset_decomp h
    exact ⟨optionMap_map_eq (fun a b hb => conv_answer hb) h1,
           optionMap_map_eq (fun a b hb => conv_answer hb) h2⟩
  refine ⟨hloader, ?_, hpass, ?_⟩
  · -- every ProcessedExample of a full run has a text answer
    obtain ⟨raw, hload, hopt⟩ := createAll_decomp hres
    have hraw : (∀ e ∈ raw.train, answerIsStrB e = true) ∧
        (∀ e ∈ raw.test, answerIsStrB e = true) := by
      obtain ⟨htr, hte⟩ := load_all_decomp hload
      constructor
      · intro e he
        rw [htr] at he
        obtain ⟨pr, hpr, hepr⟩ := combine_mem_train he
        obtain ⟨oc, hoc, hmap⟩ := List.mem_filterMap.mp hpr
        cases oc with
        | none => cases hmap
        | some c =>
          cases hmap
          exact (hloader _ hoc c rfl).1 e hepr
      · intro e he
        rw [hte] at he
        obtain ⟨pr, hpr, hepr⟩ := combine_mem_test he
        obtain ⟨oc, hoc, hmap⟩ := List.mem_filterMap.mp hpr
        cases oc with
        | none => cases hmap
        | some c =>
          cases hmap
          exact (hloader _ hoc c rfl).2 e hepr
    intro nd hnd
    have hcr := (createAll_mem hopt nd hnd).2
    rw [create_dataset_for_prompt_eq] at hcr
    obtain ⟨hanst, hanse⟩ := hpass raw _ nd.2 hcr
    constructor
    · intro e he
      have : e.answer ∈ nd.2.train.map Ex.answer := List.mem_map.mpr ⟨e, he, rfl⟩
      rw [hanst] at this
      obtain ⟨a, ha, haa⟩ := List.mem_map.mp this
      rw [answerIsStrB, ← haa]
      exact hraw.1 a ha
    · intro e he
      have : e.answer ∈ nd.2.test.map Ex.answer := List.mem_map.mpr ⟨e, he, rfl⟩
      rw [hanse] at this
      obtain ⟨a, ha, haa⟩ := List.mem_map.mp this
      rw [answerIsStrB, ← haa]
      exact hraw.2 a ha
  · intro l sp b out h e he
    obtain ⟨a, _, ha⟩ := optionMap_mem h e he
    obtain ⟨p, v, _, _, _, hans⟩ := healthcare_fields ha
    rw [answerIsStrB, hans]
    rfl

/-- A concrete record with an integer answer (binary classification). -/
def wRow1 : Ex :=
  { question := none, problem := some "p1", answer := some (.vInt 0),
    source := some "sleep_disorder", prompt := none }

/-- A concrete record with an integer answer. -/
def wRow2 : Ex :=
  { question := none, problem := some "p2", answer := some (.vInt 1),
    source := some "sleep_disorder", prompt := none }

/-- A concrete record with an integer answer. -/
def wRow3 : Ex :=
  { question := none, problem := some "p3", answer := some (.vInt 1),
    source := some "sleep_disorder", prompt := none }

/-- A concrete record carrying a `question` field and a text answer. -/
def wRow4 : Ex :=
  { question := some "q4", problem := none, answer := some (.vStr "2.5"),
    source := some "stress_resilience", prompt := none }

/-- A concrete three-record source with an answer column. -/
def wCsv1 : Csv := ⟨true, [wRow1, wRow2, wRow3]⟩

/-- A concrete one-record source with an answer column. -/
def wCsv2 : Csv := ⟨true, [wRow4]⟩

/-- A concrete source configuration: two readable files, one missing. -/
def wCsvs : List (Option Csv) := [some wCsv1, none, some wCsv2]

/-- The output of the concrete full run at ratio 4/5 and seed 42. -/
def wResults : List (String × DatasetDict) :=
  (create_datasets_for_all_prompts wCsvs ⟨4, 5⟩ 42).getD []

/-- Witness for C5: a concrete record leaving the Loader from a source whose
raw answers are integers has a string answer. -/
theorem answers_string_normalized_witness :
    answerIsStrB ((load_single_csv wCsv1 ⟨4, 5⟩ 42).1.getD 0 rowQP) = true := by
  have h := (answers_string_normalized wCsvs ⟨4, 5⟩ 42 wResults
    (by decide) (by decide)).1
  exact (h (some wCsv1) (by decide) wCsv1 rfl).1 _ (by decide)

/-! ### C1: all variants are templated from the single combined corpus -/

theorem conv_triple {sp : String} {e o : Ex}
    (h : make_generation_conversation sp e = some o) : exTriple o = exTriple e := by
  obtain ⟨_, hp, ha, hs, _⟩ := conv_fields h
  rw [exTriple, exTriple, hp, ha, hs]

theorem conv_stripSys {sp₁ sp₂ : String} {e o₁ o₂ : Ex}
    (h₁ : make_generation_conversation sp₁ e = some o₁)
    (h₂ : make_generation_conversation sp₂ e = some o₂) :
    stripSys o₁ = stripSys o₂ := by
  cases hq : e.question with
  | some q =>
    simp [make_generation_conversation, hq] at h₁ h₂
    subst h₁
    subst h₂
    rfl
  | none =>
    cases hp : e.problem with
    | some p =>
      simp [make_generation_conversation, hq, hp] at h₁ h₂
      subst h₁
      subst h₂
      rfl
    | none => simp [make_generation_conversation, hq, hp] at h₁

/-- C1: a successful run loads, splits and combines the raw corpus once
(`load_all_csv_files` succeeds and every per-variant output is templated from
that single shared corpus), and for any two produced variants the train and
test partitions carry identical sequences of `(problem, answer, source)`
triples and differ at most in the system-turn content of each prompt. -/
theorem createAllPrompts_variants_share_corpus (csvs : List (Option Csv))
    (r : Frac) (seed : Nat) (results : List (String × DatasetDict))
    (hres : create_datasets_for_all_prompts csvs r seed = some results) :
    (∃ raw, load_all_csv_files csvs r seed = some raw ∧
      ∀ nd ∈ results, create_dataset_for_prompt raw nd.1 = some nd.2) ∧
    (∀ nd₁ ∈ results, ∀ nd₂ ∈ results,
      nd₁.2.train.map exTriple = nd₂.2.train.map exTriple ∧
      nd₁.2.test.map exTriple = nd₂.2.test.map exTriple ∧
      nd₁.2.train.map stripSys = nd₂.2.train.map stripSys ∧
      nd₁.2.test.map stripSys = nd₂.2.test.map stripSys) := by
  obtain ⟨raw, hload, hopt⟩ := createAll_decomp hres
  refine ⟨⟨raw, hload, fun nd hnd => (createAll_mem hopt nd hnd).2⟩, ?_⟩
  intro nd₁ h₁ nd₂ h₂
  have hc₁ := (createAll_mem hopt nd₁ h₁).2
  have hc₂ := (createAll_mem hopt nd₂ h₂).2
  rw [create_dataset_for_prompt_eq] at hc₁ hc₂
  obtain ⟨t₁, s₁⟩ := make_generation_dataset_decomp hc₁
  obtain ⟨t₂, s₂⟩ := make_generation_dataset_decomp hc₂
  exact ⟨optionMap_pair
            (fun a b₁ b₂ hb₁ hb₂ => by rw [conv_triple hb₁, conv_triple hb₂]) t₁ t₂,
         optionMap_pair
            (fun a b₁ b₂ hb₁ hb₂ => by rw [conv_triple hb₁, conv_triple hb₂]) s₁ s₂,
         optionMap_pair (fun a b₁ b₂ hb₁ hb₂ => conv_stripSys hb₁ hb₂) t₁ t₂,
         optionMap_pair (fun a b₁ b₂ hb₁ hb₂ => conv_stripSys hb₁ hb₂) s₁ s₂⟩

/-- Witness for C1: on the concrete run, the first two produced variants have
identical train-partition triples. -/
theorem createAllPrompts_variants_share_corpus_witness :
    (wResults.getD 0 ("", ⟨[], []⟩)).2.train.map exTriple =
      (wResults.getD 1 ("", ⟨[], []⟩)).2.train.map exTriple := by
  have h := (createAllPrompts_variants_share_corpus wCsvs ⟨4, 5⟩ 42 wResults
    (by decide)).2
  exact (h _ (by decide) _ (by decide)).1
